import Mathlib

/-!
# Verification of the ign-go request-dispatch layer

Shallow embedding, in Lean 4, of the algorithmic core of the `ign-go`
HTTP toolkit: the error taxonomy and reporter (`errors.go`), the JSON
result encoders and the CORS preflight resolver (`router.go`), and the
pagination engine (`pagination.go`).  Go `int64`/`int` values are
modelled as `Int` (no arithmetic in this layer comes near the 64-bit
boundary; where Go division semantics matter we use truncated division
`Int.tdiv`/`Int.tmod`, which is exactly Go's `/` and `%`).  Fallible Go
functions returning `(value, error)` pairs are modelled with
`Except`/`Option`.
-/

namespace IgnGo

/-! ## HTTP status constants (net/http) -/

def StatusOK : Int := 200
def StatusBadRequest : Int := 400
def StatusUnauthorized : Int := 401
def StatusForbidden : Int := 403
def StatusNotFound : Int := 404
def StatusConflict : Int := 409
def StatusInternalServerError : Int := 500
def StatusServiceUnavailable : Int := 503

/-! ## Error taxonomy (ign-go `errors.go`)

Each Go constant `const ErrorX = n` becomes a Lean definition. -/

def ErrorNoDatabase : Int := 1000
def ErrorDbDelete : Int := 1001
def ErrorDbSave : Int := 1002
def ErrorIDNotFound : Int := 1003
def ErrorNameNotFound : Int := 1004
def ErrorFileNotFound : Int := 1005
def ErrorMarshalJSON : Int := 2000
def ErrorUnmarshalJSON : Int := 2001
def ErrorMarshalProto : Int := 2500
def ErrorIDNotInRequest : Int := 3000
def ErrorIDWrongFormat : Int := 3001
def ErrorNameWrongFormat : Int := 3002
def ErrorPayloadEmpty : Int := 3003
def ErrorForm : Int := 3004
def ErrorUnexpectedID : Int := 3005
def ErrorUnknownSuffix : Int := 3006
def ErrorUserNotInRequest : Int := 3007
def ErrorUserUnknown : Int := 3008
def ErrorMissingField : Int := 3009
def ErrorOwnerNotInRequest : Int := 3010
def ErrorModelNotInRequest : Int := 3011
def ErrorAuthNoUser : Int := 4000
def ErrorAuthJWTInvalid : Int := 4001
def ErrorUnauthorized : Int := 4002
def ErrorZipNotAvailable : Int := 100000
def ErrorResourceExists : Int := 100001
def ErrorCreatingDir : Int := 100002
def ErrorCreatingRepo : Int := 100003
def ErrorCreatingFile : Int := 100004
def ErrorUnzipping : Int := 100005
def ErrorNonExistentResource : Int := 100006
def ErrorRepo : Int := 100007
def ErrorRemovingDir : Int := 100008
def ErrorFileTree : Int := 100009

/-- `Modelled from the spec:` the constant `ErrorInvalidPaginationRequest`
is referenced by `NewPaginationRequest` in `pagination.go` but its
declaration is not among the provided sources (the provided `errors.go`
is an earlier revision without it).  The spec only requires it to be a
distinct request-validation error code; its concrete numeral is
irrelevant to every theorem below, which mention it only by name. -/
def ErrorInvalidPaginationRequest : Int := 3012

/-- The Go struct `ErrMsg`.  The struct tags of the source are recorded
separately in `ErrMsg.jsonFields` below: `ErrCode` is tagged
`json:"errcode"`, `StatusCode` is tagged `json:"-"`, `Msg` is tagged
`json:"msg"`, and `BaseError` is tagged `json:"-"`.  The Go `error`
interface value held in `BaseError` is modelled as an optional error
string (`none` = the nil interface). -/
structure ErrMsg where
  ErrCode : Int
  StatusCode : Int
  Msg : String
  BaseError : Option String
deriving DecidableEq, Repr

/-- `ErrorMessageOK` creates an ErrMsg initialized with OK (default) values. -/
def ErrorMessageOK : ErrMsg :=
  { ErrCode := 0, StatusCode := StatusOK, Msg := "", BaseError := none }

/-- `ErrorMessage` receives an error code and generates an error message
response.  The Go `switch` on the code is embedded as the equivalent
chain of equality tests, one per `case`, in source order; a code with no
case falls through and returns the OK envelope unchanged. -/
def ErrorMessage (err : Int) : ErrMsg :=
  let em := ErrorMessageOK
  if err = ErrorNoDatabase then
    { em with Msg := "Unable to connect to the database",
              ErrCode := ErrorNoDatabase, StatusCode := StatusServiceUnavailable }
  else if err = ErrorDbDelete then
    { em with Msg := "Unable to remove resource from the database",
              ErrCode := ErrorDbDelete, StatusCode := StatusInternalServerError }
  else if err = ErrorDbSave then
    { em with Msg := "Unable to save resource into the database",
              ErrCode := ErrorDbSave, StatusCode := StatusInternalServerError }
  else if err = ErrorIDNotFound then
    { em with Msg := "Requested id not found on server",
              ErrCode := ErrorIDNotFound, StatusCode := StatusNotFound }
  else if err = ErrorNameNotFound then
    { em with Msg := "Requested name not found on server",
              ErrCode := ErrorNameNotFound, StatusCode := StatusNotFound }
  else if err = ErrorFileNotFound then
    { em with Msg := "Requested file not found on server",
              ErrCode := ErrorFileNotFound, StatusCode := StatusNotFound }
  else if err = ErrorMarshalJSON then
    { em with Msg := "Unable to marshal the response into a JSON",
              ErrCode := ErrorMarshalJSON, StatusCode := StatusInternalServerError }
  else if err = ErrorUnmarshalJSON then
    { em with Msg := "Unable to decode JSON payload included in the request",
              ErrCode := ErrorUnmarshalJSON, StatusCode := StatusBadRequest }
  else if err = ErrorMarshalProto then
    { em with Msg := "Unable to marshal the response into a protobuf",
              ErrCode := ErrorMarshalProto, StatusCode := StatusInternalServerError }
  else if err = ErrorIDNotInRequest then
    { em with Msg := "ID not present in request",
              ErrCode := ErrorIDNotInRequest, StatusCode := StatusBadRequest }
  else if err = ErrorOwnerNotInRequest then
    { em with Msg := "Owner name not present in request",
              ErrCode := ErrorOwnerNotInRequest, StatusCode := StatusBadRequest }
  else if err = ErrorModelNotInRequest then
    { em with Msg := "Model name not present in request",
              ErrCode := ErrorModelNotInRequest, StatusCode := StatusBadRequest }
  else if err = ErrorIDWrongFormat then
    { em with Msg := "ID in request is in an invalid format",
              ErrCode := ErrorIDWrongFormat, StatusCode := StatusBadRequest }
  else if err = ErrorNameWrongFormat then
    { em with Msg := "Name in request is in an invalid format",
              ErrCode := ErrorNameWrongFormat, StatusCode := StatusBadRequest }
  else if err = ErrorPayloadEmpty then
    { em with Msg := "Payload empty in the request",
              ErrCode := ErrorPayloadEmpty, StatusCode := StatusBadRequest }
  else if err = ErrorForm then
    { em with Msg := "Missing field in the multipart form",
              ErrCode := ErrorForm, StatusCode := StatusBadRequest }
  else if err = ErrorUnexpectedID then
    { em with Msg := "Unexpected id included in your request",
              ErrCode := ErrorUnexpectedID, StatusCode := StatusBadRequest }
  else if err = ErrorUnknownSuffix then
    { em with Msg := "Unknown suffix requested",
              ErrCode := ErrorUnknownSuffix, StatusCode := StatusBadRequest }
  else if err = ErrorUserNotInRequest then
    { em with Msg := "User or team not present in the request",
              ErrCode := ErrorUserNotInRequest, StatusCode := StatusBadRequest }
  else if err = ErrorUserUnknown then
    { em with Msg := "Provided user or team does not exist on the server",
              ErrCode := ErrorUserUnknown, StatusCode := StatusBadRequest }
  else if err = ErrorMissingField then
    { em with Msg := "One or more required fields are missing",
              ErrCode := ErrorMissingField, StatusCode := StatusBadRequest }
  else if err = ErrorAuthNoUser then
    { em with Msg := "No user in server with the claimed identity",
              ErrCode := ErrorAuthNoUser, StatusCode := StatusForbidden }
  else if err = ErrorAuthJWTInvalid then
    { em with Msg := "Unable to process user ID from the JWT included in request",
              ErrCode := ErrorAuthJWTInvalid, StatusCode := StatusForbidden }
  else if err = ErrorUnauthorized then
    -- NOTE: the source really assigns `ErrorAuthJWTInvalid` here, not
    -- `ErrorUnauthorized`; the embedding reproduces the source as written.
    { em with Msg := "Unauthorized request",
              ErrCode := ErrorAuthJWTInvalid, StatusCode := StatusUnauthorized }
  else if err = ErrorZipNotAvailable then
    { em with Msg := "Zip file not available for this resource",
              ErrCode := ErrorZipNotAvailable, StatusCode := StatusServiceUnavailable }
  else if err = ErrorResourceExists then
    { em with Msg := "A resource with the same id already exists",
              ErrCode := ErrorResourceExists, StatusCode := StatusConflict }
  else if err = ErrorCreatingDir then
    { em with Msg := "Unable to create a new directory for the resource",
              ErrCode := ErrorCreatingDir, StatusCode := StatusInternalServerError }
  else if err = ErrorCreatingRepo then
    { em with Msg := "Unable to create a new repository for the resource",
              ErrCode := ErrorCreatingRepo, StatusCode := StatusInternalServerError }
  else if err = ErrorCreatingFile then
    { em with Msg := "Unable to create a new file for the resource",
              ErrCode := ErrorCreatingFile, StatusCode := StatusInternalServerError }
  else if err = ErrorUnzipping then
    { em with Msg := "Unable to unzip a file",
              ErrCode := ErrorUnzipping, StatusCode := StatusBadRequest }
  else if err = ErrorNonExistentResource then
    { em with Msg := "Unable to find the requested resource",
              ErrCode := ErrorNonExistentResource, StatusCode := StatusServiceUnavailable }
  else if err = ErrorRepo then
    { em with Msg := "Unable to process repository command",
              ErrCode := ErrorRepo, StatusCode := StatusServiceUnavailable }
  else if err = ErrorRemovingDir then
    { em with Msg := "Unable to remove a resource directory",
              ErrCode := ErrorRemovingDir, StatusCode := StatusInternalServerError }
  else if err = ErrorFileTree then
    { em with Msg := "Unable to get files from model",
              ErrCode := ErrorFileTree, StatusCode := StatusInternalServerError }
  else em

/-- `NewErrorMessage` receives an error code and returns the built envelope
(Go returns a pointer; the pointer indirection is immaterial here). -/
def NewErrorMessage (err : Int) : ErrMsg :=
  ErrorMessage err

/-- `NewErrorMessageWithBase` receives an error code and a root error. -/
def NewErrorMessageWithBase (err : Int) (base : Option String) : ErrMsg :=
  { NewErrorMessage err with BaseError := base }

/-- `Modelled from the spec:` `NewErrorMessageWithArgs` is called by
`NewPaginationRequest` in `pagination.go` but its declaration is not among
the provided sources (the provided `errors.go` is an earlier revision
without it).  Per the spec it builds the validation-error envelope for the
given internal code, carrying the root cause for logging only; the extra
string arguments name the offending query parameter and do not change the
envelope's identity.  We model it as the request-validation envelope of
the given code (HTTP 400 per the spec's taxonomy: request-malformed
errors are Bad Request) with the base error attached; the spec does not
fix the message text. -/
def NewErrorMessageWithArgs (err : Int) (base : Option String)
    (_args : List String) : ErrMsg :=
  { ErrCode := err, StatusCode := StatusBadRequest,
    Msg := "Invalid request", BaseError := base }

/-- The list of every code with a `case` in `ErrorMessage`'s switch
(the closed taxonomy of `errors.go`, in declaration order). -/
def taxonomyCodes : List Int :=
  [ErrorNoDatabase, ErrorDbDelete, ErrorDbSave, ErrorIDNotFound,
   ErrorNameNotFound, ErrorFileNotFound, ErrorMarshalJSON,
   ErrorUnmarshalJSON, ErrorMarshalProto, ErrorIDNotInRequest,
   ErrorIDWrongFormat, ErrorNameWrongFormat, ErrorPayloadEmpty,
   ErrorForm, ErrorUnexpectedID, ErrorUnknownSuffix,
   ErrorUserNotInRequest, ErrorUserUnknown, ErrorMissingField,
   ErrorOwnerNotInRequest, ErrorModelNotInRequest, ErrorAuthNoUser,
   ErrorAuthJWTInvalid, ErrorUnauthorized, ErrorZipNotAvailable,
   ErrorResourceExists, ErrorCreatingDir, ErrorCreatingRepo,
   ErrorCreatingFile, ErrorUnzipping, ErrorNonExistentResource,
   ErrorRepo, ErrorRemovingDir, ErrorFileTree]

/-! ## encoding/json model

The Go values a handler result can carry (as seen by `reflect` and
`encoding/json`) are modelled by `GoVal`.  A Go slice is either `nil` or
holds a (possibly empty) list of elements — the two are distinct values
with distinct JSON encodings (`null` vs `[...]`), which is what the
list-encoder claims are about.  `jsonMarshal` models `json.Marshal`
(string escaping of exotic characters is abstracted: message strings in
this code are plain ASCII). -/

inductive GoVal where
  | null : GoVal
  | num (n : Int) : GoVal
  | str (s : String) : GoVal
  | slice (elems : Option (List GoVal)) : GoVal
  | strct (fields : List (String × GoVal)) : GoVal

/-- JSON string quoting (`"` + contents + `"`). -/
def jsonQuote (s : String) : String := "\"" ++ s ++ "\""

mutual

/-- `json.Marshal` on a `GoVal`: a nil slice marshals to `null`, a
non-nil slice to a `[...]` array, a struct to a `{...}` object. -/
def jsonMarshal : GoVal → String
  | .null => "null"
  | .num n => toString n
  | .str s => jsonQuote s
  | .slice none => "null"
  | .slice (some xs) => "[" ++ jsonMarshalElems xs ++ "]"
  | .strct fields => "\x7b" ++ jsonMarshalFields fields ++ "\x7d"

/-- Comma-separated encodings of array elements. -/
def jsonMarshalElems : List GoVal → String
  | [] => ""
  | [x] => jsonMarshal x
  | x :: y :: xs => jsonMarshal x ++ "," ++ jsonMarshalElems (y :: xs)

/-- Comma-separated `"key":value` encodings of struct fields. -/
def jsonMarshalFields : List (String × GoVal) → String
  | [] => ""
  | [(k, v)] => jsonQuote k ++ ":" ++ jsonMarshal v
  | (k, v) :: f :: fs =>
      jsonQuote k ++ ":" ++ jsonMarshal v ++ "," ++ jsonMarshalFields (f :: fs)

end

/-! ## Error reporter (`router.go`: `reportJSONError`) -/

/-- The Go struct fields of `ErrMsg` with their `json:"..."` tags, in
declaration order, exactly as in the source:
`ErrCode int json:"errcode"`, `StatusCode int json:"-"`,
`Msg string json:"msg"`, `BaseError error json:"-"`. -/
def ErrMsg.jsonFields (e : ErrMsg) : List (String × String × GoVal) :=
  [("ErrCode", "errcode", .num e.ErrCode),
   ("StatusCode", "-", .num e.StatusCode),
   ("Msg", "msg", .str e.Msg),
   ("BaseError", "-", match e.BaseError with
                      | none => .null
                      | some s => .str s)]

/-- `encoding/json` struct marshalling with tags: a field tagged
`json:"-"` is skipped; otherwise the tag is the serialized key. -/
def marshalWithTags (fs : List (String × String × GoVal)) : String :=
  "\x7b" ++ String.intercalate ","
          (fs.filterMap (fun f =>
            if f.2.1 = "-" then none
            else some (jsonQuote f.2.1 ++ ":" ++ jsonMarshal f.2.2))) ++ "\x7d"

/-- The JSON body written by `reportJSONError` (`router.go`): it logs the
envelope and the base error (logging is an external effect), marshals the
`ErrMsg` honouring its struct tags, and writes the marshalled bytes as the
response body with `errMsg.StatusCode` as the HTTP status. -/
def reportJSONErrorBody (errMsg : ErrMsg) : String :=
  marshalWithTags errMsg.jsonFields

/-- The HTTP status written by `reportJSONError`. -/
def reportJSONErrorStatus (errMsg : ErrMsg) : Int :=
  errMsg.StatusCode

/-! ## Result encoders (`router.go`: `TypeJSONResult`)

`TypeJSONResult.ServeHTTP` runs the business handler, then — when a
wrapper field name is configured (`JSONListResult`) — extracts that field
from the result via reflection and JSON-encodes the field value instead
of the whole result.  The handler execution and the `http.ResponseWriter`
are external; the embedding maps the handler's already-computed result
value to the serialized body.  (`json.Encoder.Encode` appends a trailing
newline to the marshalled bytes on the wire; the serialization itself is
`jsonMarshal`.) -/

/-- `reflect.Indirect(value).FieldByName(name)` on a struct result:
looks up the named field.  `none` models the invalid `reflect.Value`
obtained when the result is not a struct or lacks the field (on which the
real code would panic in `Interface()`). -/
def fieldByName (v : GoVal) (name : String) : Option GoVal :=
  match v with
  | .strct fields => fields.lookup name
  | _ => none

/-- Body serialized by `TypeJSONResult.ServeHTTP` for a successful handler
result, given the configured wrapper field name (`""` = no wrapper, as
built by `JSONResult`; non-empty = the `JSONListResult` list encoder). -/
def TypeJSONResult.serveBody (wrapperField : String) (result : GoVal) :
    Option String :=
  if wrapperField ≠ "" then
    (fieldByName result wrapperField).map jsonMarshal
  else
    some (jsonMarshal result)

/-! ## Pagination engine (`pagination.go`) -/

def defaultPageSize : Int := 20
def maxPageSize : Int := 100
def defaultPageNumber : Int := 1
def pageArgName : String := "page"
def perPageArgName : String := "per_page"

/-- `Min` from `utility.go`. -/
def Min (x y : Int) : Int := if x < y then x else y

/-- `Max` from `utility.go`. -/
def Max (x y : Int) : Int := if x > y then x else y

/-- `strconv.ParseInt(s, 10, 64)`: optional leading `+`/`-` sign followed
by at least one decimal digit, with the result required to fit in a
signed 64-bit integer; any other input is an error (`none`). -/
def parseInt64 (s : String) : Option Int :=
  let cs := s.toList
  match cs with
  | [] => none
  | c :: rest =>
    let neg := c = '-'
    let ds := if c = '-' ∨ c = '+' then rest else cs
    if ds = [] ∨ ¬ ds.all Char.isDigit then none
    else
      let n : Nat := ds.foldl (fun acc d => acc * 10 + (d.toNat - 48)) 0
      let v : Int := if neg then -(n : Int) else (n : Int)
      if -(2 ^ 63) ≤ v ∧ v ≤ 2 ^ 63 - 1 then some v else none

/-- The Go struct `PaginationRequest`. -/
structure PaginationRequest where
  PageRequested : Bool
  Page : Int
  PerPage : Int
  URL : String
deriving DecidableEq, Repr

/-- The `Process "page" argument` block of `NewPaginationRequest`:
defaults, then — when the parameter is present — parses and validates it,
setting the `PageRequested` flag and the page.  The base error attached
on a parse failure stands for the non-nil `strconv` error. -/
def processPageArg (pageStr url : String) : Except ErrMsg PaginationRequest :=
  let pageRequest : PaginationRequest :=
    { PageRequested := false, Page := defaultPageNumber,
      PerPage := defaultPageSize, URL := url }
  if pageStr ≠ "" then
    match parseInt64 pageStr with
    | none =>
        .error (NewErrorMessageWithArgs ErrorInvalidPaginationRequest
                  (some "strconv.ParseInt: parsing") [pageArgName])
    | some v =>
        if v ≤ 0 then
          .error (NewErrorMessageWithArgs ErrorInvalidPaginationRequest
                    none [pageArgName])
        else .ok { pageRequest with PageRequested := true, Page := v }
  else .ok pageRequest

/-- The `Process "per_page" argument` block of `NewPaginationRequest`:
when the parameter is present, parses and validates it; a value above
`maxPageSize` silently falls back to `defaultPageSize`. -/
def processPerPageArg (perPageStr : String) (req : PaginationRequest) :
    Except ErrMsg PaginationRequest :=
  if perPageStr ≠ "" then
    match parseInt64 perPageStr with
    | none =>
        .error (NewErrorMessageWithArgs ErrorInvalidPaginationRequest
                  (some "strconv.ParseInt: parsing") [perPageArgName])
    | some v =>
        if v ≤ 0 then
          .error (NewErrorMessageWithArgs ErrorInvalidPaginationRequest
                    none [perPageArgName])
        else if v > maxPageSize then .ok { req with PerPage := defaultPageSize }
        else .ok { req with PerPage := v }
  else .ok req

/-- `NewPaginationRequest` creates a new PaginationRequest from the given
http request.  The inputs `pageStr` and `perPageStr` are the values
`r.URL.Query().Get("page")` and `r.URL.Query().Get("per_page")` return
(`""` when the parameter is absent); `url` is `r.URL.String()`.  The Go
`(value, error)` return is an `Except`; the source's early returns abort
on the first validation error. -/
def NewPaginationRequest (pageStr perPageStr url : String) :
    Except ErrMsg PaginationRequest :=
  match processPageArg pageStr url with
  | .error e => .error e
  | .ok req => processPerPageArg perPageStr req

/-- The Go struct `PaginationResult`. -/
structure PaginationResult where
  Page : Int
  PerPage : Int
  URL : String
  QueryCount : Int
  PageFound : Bool
deriving DecidableEq, Repr

/-- `computeLastPage` from `pagination.go`.  Go's `%` and `/` on `int64`
are truncated division, i.e. `Int.tmod` and `Int.tdiv`. -/
def computeLastPage (page : PaginationResult) : Int :=
  let mod := Int.tmod page.QueryCount page.PerPage
  let lastPage := Int.tdiv page.QueryCount page.PerPage
  if mod > 0 then lastPage + 1 else lastPage

/-- The `LIMIT` bound `PaginateQuery` applies to the GORM query. -/
def paginateQueryLimit (p : PaginationRequest) : Int := p.PerPage

/-- The `OFFSET` bound `PaginateQuery` applies to the GORM query. -/
def paginateQueryOffset (p : PaginationRequest) : Int :=
  (Max p.Page 1 - 1) * p.PerPage

/-- `PaginateQuery` after the two GORM executions (the bounded `Find` and
the unbounded `Count` are the external data-store collaborator; `count`
is the value the count query returned).  Builds the `PaginationResult`
and computes `PageFound` exactly as the source does. -/
def PaginateQuery (p : PaginationRequest) (count : Int) : PaginationResult :=
  let r0 : PaginationResult :=
    { Page := p.Page, PerPage := p.PerPage, URL := p.URL,
      QueryCount := count, PageFound := false }
  let lastPage := computeLastPage r0
  { r0 with
    PageFound := decide (r0.Page ≤ lastPage)
                 || (decide (r0.Page = 1) && decide (r0.QueryCount = 0)) }

/-- `newLinkStr`: one `<url>; rel="name"` entry of the `Link` header.
The query-string rewriting done through `net/url` (parse the original
URL, set `page`, re-encode) is the external stdlib collaborator; it is
abstracted to the URL carrying the rewritten `page` parameter. -/
def newLinkStr (u : String) (page : Int) (name : String) : String :=
  "<" ++ u ++ "?page=" ++ toString page ++ ">; rel=\"" ++ name ++ "\""

/-- The ordered `(target page, relation)` pairs for which
`WritePaginationHeaders` appends a link: `next`/`last` when
`page < lastPage`, then `first`/`prev` when `page > 1`, with `prev`
clamped from `page-1` down to `lastPage` when `page > lastPage`. -/
def paginationLinks (page : PaginationResult) : List (Int × String) :=
  let lastPage := computeLastPage page
  let nextLast : List (Int × String) :=
    if page.Page < lastPage then
      [(page.Page + 1, "next"), (lastPage, "last")]
    else []
  let firstPrev : List (Int × String) :=
    if page.Page > 1 then
      [(1, "first"),
       (if page.Page > lastPage then lastPage else page.Page - 1, "prev")]
    else []
  nextLast ++ firstPrev

/-- The two response headers `WritePaginationHeaders` sets: `Link` is the
`", "`-join of the link entries (the empty string when no relation
applies), and `X-Total-Count` is always set to the query count. -/
def WritePaginationHeaders (page : PaginationResult) : List (String × String) :=
  let links := (paginationLinks page).map (fun pr => newLinkStr page.URL pr.1 pr.2)
  let headerStr := String.intercalate ", " links
  [("Link", headerStr), ("X-Total-Count", toString page.QueryCount)]

/-! ## CORS preflight resolver (`router.go`)

`createRouteHelper` derives, from each registered concrete path, a
regular-expression string: every `.` is first escaped to `\.` and every
`{...}` placeholder is then replaced by the wildcard `[^/]+`.  The
derived strings are the keys of `corsMap` (pattern → route index);
`getSortedREs` sorts them with `sortRE.Less` and the synthesized
`OPTIONS` handler scans the sorted list for the first pattern matching
the complete request path.

The embedding works with the token-level view of those strings: a
pattern is a list of tokens, each either a literal character or one
`[^/]+` wildcard.  `strings.Count(s, "[^/]+")` is the number of wildcard
tokens and `len(s)` is the summed rendered length of the tokens
(1 per literal, 2 for an escaped `.`, 5 for `[^/]+`). -/

/-- One token of a compiled path pattern. -/
inductive Tok where
  | lit (c : Char) : Tok
  | wild : Tok
deriving DecidableEq, Repr

/-- One token of a declared route URI: a plain character or one `{...}`
placeholder. -/
inductive UTok where
  | ch (c : Char) : UTok
  | param : UTok
deriving DecidableEq, Repr

/-- The pattern derivation of `createRouteHelper`:
`re.ReplaceAllString(strings.Replace(uriPath, ".", "\\.", -1), "[^/]+")`
with `re = {.+?}` — every placeholder becomes a wildcard token, every
other character a literal token. -/
def compileRE : List UTok → List Tok
  | [] => []
  | .ch c :: rest => .lit c :: compileRE rest
  | .param :: rest => .wild :: compileRE rest

/-- The URI-token list of a placeholder-free string. -/
def strUTok (s : String) : List UTok := s.toList.map UTok.ch

/-- Rendered length of one token inside the regex string (`\.` for a
literal dot, `[^/]+` for a wildcard). -/
def tokLen : Tok → Nat
  | .lit c => if c = '.' then 2 else 1
  | .wild => 5

/-- `len(s)` of the regex string, token-level view. -/
def reLen (p : List Tok) : Nat := (p.map tokLen).sum

/-- `strings.Count(s, "[^/]+")`, token-level view. -/
def wildCount (p : List Tok) : Nat := p.count .wild

/-- `sortRE.Less` from `router.go`: ascending count of `[^/]+`
occurrences; on equal counts the larger string takes precedence. -/
def sortRELess (a b : List Tok) : Bool :=
  let ci := wildCount a
  let cj := wildCount b
  if ci = cj then decide (reLen a > reLen b) else decide (ci < cj)

/-- The non-strict order `sort.Sort` establishes: `a` may precede `b`
exactly when `Less b a` is false. -/
def reLE (a b : List Tok) : Prop := sortRELess b a = false

instance : DecidableRel reLE := fun a b => decEq (sortRELess b a) false

instance : IsTotal (List Tok) reLE where
  total a b := by
    unfold reLE sortRELess
    rcases Nat.lt_trichotomy (wildCount a) (wildCount b) with h | h | h <;>
      simp [h, Nat.ne_of_lt, Nat.ne_of_gt, Nat.lt_asymm]
    all_goals omega

instance : IsTrans (List Tok) reLE where
  trans a b c hab hbc := by
    unfold reLE sortRELess at *
    by_cases h1 : wildCount b = wildCount a <;>
      by_cases h2 : wildCount c = wildCount b <;>
      by_cases h3 : wildCount c = wildCount a <;>
      simp_all <;> omega

/-- Full anchored matching of a pattern against a path: the code accepts
a pattern exactly when `regexp.MustCompile(key).FindString(r.URL.Path)`
equals the whole path, i.e. when the expression matches the complete
path.  `[^/]+` consumes one or more non-`/` characters. -/
def tokMatch : List Tok → List Char → Bool
  | [], [] => true
  | [], _ :: _ => false
  | .lit _ :: _, [] => false
  | .lit c :: ts, d :: ds => c = d && tokMatch ts ds
  | .wild :: _, [] => false
  | .wild :: ts, d :: ds =>
      !(d = '/') && (tokMatch ts ds || tokMatch (.wild :: ts) ds)

/-- `getSortedREs`: the keys of `corsMap`, sorted per `sortRE` by
`sort.Sort` (modelled with insertion sort, which establishes exactly the
order `sort.Sort` guarantees: a permutation of the keys that is sorted
for the `Less` relation). -/
def getSortedREs (m : List (List Tok × Nat)) : List (List Tok) :=
  List.insertionSort reLE (m.map Prod.fst)

/-- `corsMap[key]`: association-list lookup of a pattern's route index
(the Go map holds each key once). -/
def corsLookup (m : List (List Tok × Nat)) (key : List Tok) : Option Nat :=
  match m with
  | [] => none
  | (k, v) :: rest => if k = key then some v else corsLookup rest key

/-- The scan inside the synthesized `OPTIONS` handler: walk `sortedREs`
in order and return the route index of the first pattern that matches
the complete request path. -/
def resolveOptions (m : List (List Tok × Nat)) (path : List Char) :
    Option Nat :=
  match (getSortedREs m).find? (fun key => tokMatch key path) with
  | some key => corsLookup m key
  | none => none

/-- The synthesized `OPTIONS` handler's outcome: the matched route's
index (whose metadata it serializes), or — when no pattern matched — the
`ErrorNameNotFound` envelope passed to `reportJSONError`. -/
def handleOptions (m : List (List Tok × Nat)) (path : List Char) :
    Except ErrMsg Nat :=
  match resolveOptions m path with
  | some idx => .ok idx
  | none => .error (ErrorMessage ErrorNameNotFound)

/-! ## Theorems: error taxonomy and reporter (C8, C9, C10) -/

/-- C8: the claim states that for every internal error code in the closed
taxonomy the built envelope's `errcode` field equals the given code.  The
code violates its own uniform pattern at exactly one case: building the
envelope for `ErrorUnauthorized` (4002) assigns `ErrCode = ErrorAuthJWTInvalid`
(4001), so the serialized body misidentifies the reported code.  This
theorem evaluates the code at the failing input. -/
theorem C8_unauthorized_errcode_mismatch :
    (ErrorMessage ErrorUnauthorized).ErrCode = ErrorAuthJWTInvalid
    ∧ (ErrorMessage ErrorUnauthorized).StatusCode = StatusUnauthorized
    ∧ (ErrorMessage ErrorUnauthorized).Msg = "Unauthorized request"
    ∧ ErrorAuthJWTInvalid ≠ ErrorUnauthorized := by
  refine ⟨?_, ?_, ?_, ?_⟩ <;> decide

/-- C10: for every integer code with no `case` in the taxonomy switch,
`ErrorMessage` returns the OK envelope unchanged: errcode 0, HTTP status
200 and an empty message. -/
theorem C10_unknown_code_yields_ok (c : Int) (hc : c ∉ taxonomyCodes) :
    ErrorMessage c = ErrorMessageOK
    ∧ (ErrorMessage c).ErrCode = 0
    ∧ (ErrorMessage c).StatusCode = 200
    ∧ (ErrorMessage c).Msg = "" := by
  have hmain : ErrorMessage c = ErrorMessageOK := by
    simp only [taxonomyCodes, List.mem_cons, List.not_mem_nil, or_false,
               not_or] at hc
    obtain ⟨h01, h02, h03, h04, h05, h06, h07, h08, h09, h10, h11, h12, h13,
            h14, h15, h16, h17, h18, h19, h20, h21, h22, h23, h24, h25, h26,
            h27, h28, h29, h30, h31, h32, h33, h34⟩ := hc
    simp only [ErrorMessage, if_neg h01, if_neg h02, if_neg h03, if_neg h04,
               if_neg h05, if_neg h06, if_neg h07, if_neg h08, if_neg h09,
               if_neg h10, if_neg h11, if_neg h12, if_neg h13, if_neg h14,
               if_neg h15, if_neg h16, if_neg h17, if_neg h18, if_neg h19,
               if_neg h20, if_neg h21, if_neg h22, if_neg h23, if_neg h24,
               if_neg h25, if_neg h26, if_neg h27, if_neg h28, if_neg h29,
               if_neg h30, if_neg h31, if_neg h32, if_neg h33, if_neg h34]
  refine ⟨hmain, ?_, ?_, ?_⟩ <;> rw [hmain] <;> rfl

/-- Witness for C10 at the concrete unlisted code 999. -/
theorem C10_witness :
    ErrorMessage 999 = ErrorMessageOK ∧ (ErrorMessage 999).StatusCode = 200 :=
  ⟨(C10_unknown_code_yields_ok 999 (by decide)).1,
   (C10_unknown_code_yields_ok 999 (by decide)).2.2.1⟩

/-- C9: for every error envelope, the body serialized by
`reportJSONError` has exactly the two JSON fields `errcode` and `msg`
(in that order); the HTTP status code and the wrapped root cause are
never part of the body — in particular the body is unchanged under any
`StatusCode` and any (even non-nil) `BaseError`. -/
theorem C9_error_body_exactly_errcode_msg (e : ErrMsg) :
    (e.jsonFields.filterMap
        (fun f => if f.2.1 = "-" then none else some f.2.1)) = ["errcode", "msg"]
    ∧ reportJSONErrorBody e
        = marshalWithTags [("ErrCode", "errcode", .num e.ErrCode),
                           ("Msg", "msg", .str e.Msg)]
    ∧ ∀ (s : Int) (b : Option String),
        reportJSONErrorBody { e with StatusCode := s, BaseError := b }
          = reportJSONErrorBody e :=
  ⟨rfl, rfl, fun _ _ => rfl⟩

/-! ## Theorems: pagination engine (C2 … C6) -/

/-- The code's `computeLastPage` (truncated div/mod plus round-up) equals
the spec's `ceil(totalCount / perPage)` whenever `perPage ≥ 1` and
`totalCount ≥ 0`. -/
theorem computeLastPage_eq_ceil (r : PaginationResult)
    (hpp : 1 ≤ r.PerPage) (hc : 0 ≤ r.QueryCount) :
    computeLastPage r = ⌈(r.QueryCount : ℚ) / (r.PerPage : ℚ)⌉ := by
  have hp0 : (0 : Int) < r.PerPage := by omega
  have hpne : r.PerPage ≠ 0 := by omega
  have hmod0 : 0 ≤ r.QueryCount % r.PerPage := Int.emod_nonneg _ hpne
  have hmodlt : r.QueryCount % r.PerPage < r.PerPage :=
    Int.emod_lt_of_pos _ hp0
  have hdiv : r.PerPage * (r.QueryCount / r.PerPage) + r.QueryCount % r.PerPage
      = r.QueryCount := Int.ediv_add_emod _ _
  have hpQ : (0 : ℚ) < (r.PerPage : ℚ) := by exact_mod_cast hp0
  simp only [computeLastPage]
  rw [Int.tdiv_eq_ediv hc (le_of_lt hp0), Int.tmod_eq_emod hc (le_of_lt hp0)]
  symm
  by_cases h : r.QueryCount % r.PerPage > 0
  · rw [if_pos h, Int.ceil_eq_iff]
    constructor
    · rw [lt_div_iff₀ hpQ]
      have key : (r.QueryCount / r.PerPage) * r.PerPage < r.QueryCount := by
        nlinarith [hdiv]
      have keyQ : ((r.QueryCount / r.PerPage : Int) : ℚ) * (r.PerPage : ℚ)
          < (r.QueryCount : ℚ) := by exact_mod_cast key
      push_cast
      nlinarith [keyQ]
    · rw [div_le_iff₀ hpQ]
      have key : r.QueryCount ≤ (r.QueryCount / r.PerPage + 1) * r.PerPage := by
        nlinarith [hdiv, hmodlt]
      exact_mod_cast key
  · rw [if_neg h, Int.ceil_eq_iff]
    have hm0 : r.QueryCount % r.PerPage = 0 := by omega
    constructor
    · rw [lt_div_iff₀ hpQ]
      have key : (r.QueryCount / r.PerPage - 1) * r.PerPage < r.QueryCount := by
        nlinarith [hdiv, hm0]
      exact_mod_cast key
    · rw [div_le_iff₀ hpQ]
      have key : r.QueryCount ≤ (r.QueryCount / r.PerPage) * r.PerPage := by
        nlinarith [hdiv, hm0]
      exact_mod_cast key

/-- C2: for every pagination run with `perPage ≥ 1` and `totalCount ≥ 0`,
`pageFound` is true exactly when `page ≤ ceil(totalCount / perPage)` or
`page = 1` with an empty result set; in particular an empty result set
requested at page 1 is found. -/
theorem C2_pageFound_iff (p : PaginationRequest) (count : Int)
    (hpp : 1 ≤ p.PerPage) (hc : 0 ≤ count) :
    ((PaginateQuery p count).PageFound = true
      ↔ (p.Page ≤ ⌈(count : ℚ) / (p.PerPage : ℚ)⌉ ∨ (p.Page = 1 ∧ count = 0)))
    ∧ (p.Page = 1 → count = 0 → (PaginateQuery p count).PageFound = true) := by
  have hceil : computeLastPage
      { Page := p.Page, PerPage := p.PerPage, URL := p.URL,
        QueryCount := count, PageFound := false }
      = ⌈(count : ℚ) / (p.PerPage : ℚ)⌉ :=
    computeLastPage_eq_ceil _ hpp hc
  constructor
  · simp only [PaginateQuery, Bool.or_eq_true, Bool.and_eq_true,
               decide_eq_true_eq]
    rw [hceil]
  · intro h1 h0
    simp only [PaginateQuery, Bool.or_eq_true, Bool.and_eq_true,
               decide_eq_true_eq]
    exact Or.inr ⟨h1, h0⟩

/-- Witness for C2: the empty result set requested at page 1 with the
default page size is found. -/
theorem C2_witness :
    (PaginateQuery ⟨false, 1, 20, "url"⟩ 0).PageFound = true :=
  (C2_pageFound_iff ⟨false, 1, 20, "url"⟩ 0 (by decide) (by decide)).2 rfl rfl

/-- C3: with `lastPage = ceil(totalCount / perPage)`, the header writer
emits the `next` (page+1) and `last` (lastPage) link relations exactly
when `page < lastPage`, and the `first` (page 1) and `prev` relations
exactly when `page > 1`, with the `prev` target equal to
`min(page-1, lastPage)`. -/
theorem C3_link_relations (r : PaginationResult)
    (hpp : 1 ≤ r.PerPage) (hc : 0 ≤ r.QueryCount) :
    (((r.Page + 1, "next") ∈ paginationLinks r
        ∧ (⌈(r.QueryCount : ℚ) / (r.PerPage : ℚ)⌉, "last") ∈ paginationLinks r)
      ↔ r.Page < ⌈(r.QueryCount : ℚ) / (r.PerPage : ℚ)⌉)
    ∧ (((1, "first") ∈ paginationLinks r
        ∧ (min (r.Page - 1) ⌈(r.QueryCount : ℚ) / (r.PerPage : ℚ)⌉, "prev")
            ∈ paginationLinks r)
      ↔ 1 < r.Page) := by
  have hceil := computeLastPage_eq_ceil r hpp hc
  rw [← hceil]
  set lp := computeLastPage r with hlp
  have hmin : min (r.Page - 1) lp = if lp < r.Page then lp else r.Page - 1 := by
    split_ifs with h <;> omega
  rw [hmin]
  by_cases h1 : r.Page < lp <;> by_cases h2 : 1 < r.Page
  · have h3 : ¬ lp < r.Page := by omega
    simp [paginationLinks, ← hlp, h1, h2, h3, Prod.ext_iff]
  · have h3 : ¬ lp < r.Page := by omega
    simp [paginationLinks, ← hlp, h1, h2, h3, Prod.ext_iff]
  · simp [paginationLinks, ← hlp, h1, h2, Prod.ext_iff]
  · simp [paginationLinks, ← hlp, h1, h2, Prod.ext_iff]

/-- Witness for C3 at `page=2, perPage=20, totalCount=45` (`lastPage=3`):
all four relations are emitted with targets `next→3`, `last→3`,
`first→1`, `prev→1`. -/
theorem C3_witness :
    ((2 + 1 : Int), "next") ∈ paginationLinks ⟨2, 20, "url", 45, true⟩
    ∧ ((1 : Int), "first") ∈ paginationLinks ⟨2, 20, "url", 45, true⟩ :=
  ⟨((C3_link_relations ⟨2, 20, "url", 45, true⟩ (by decide) (by decide)).1.mpr
      (by norm_num [Int.lt_ceil])).1,
   ((C3_link_relations ⟨2, 20, "url", 45, true⟩ (by decide) (by decide)).2.mpr
      (by norm_num)).1⟩

/-- C6: the header writer always sets `X-Total-Count` to the query count;
with `totalCount = 0` and `page = 1` the computed last page is 0, no link
relation applies and the `Link` header is set to the empty string, while
`X-Total-Count: 0` is still set. -/
theorem C6_total_count_always (r : PaginationResult) (_hpp : 1 ≤ r.PerPage) :
    ("X-Total-Count", toString r.QueryCount) ∈ WritePaginationHeaders r
    ∧ (r.QueryCount = 0 → r.Page = 1 →
        computeLastPage r = 0
        ∧ paginationLinks r = []
        ∧ ("Link", "") ∈ WritePaginationHeaders r) := by
  refine ⟨by simp [WritePaginationHeaders], fun hq hp => ?_⟩
  have hlp : computeLastPage r = 0 := by
    simp [computeLastPage, hq]
  have hlinks : paginationLinks r = [] := by
    simp [paginationLinks, hlp, hp]
  exact ⟨hlp, hlinks,
         by simp [WritePaginationHeaders, hlinks, String.intercalate]⟩

/-- Witness for C6 at `page=1, perPage=20, totalCount=0`. -/
theorem C6_witness :
    ("X-Total-Count", toString (0 : Int))
        ∈ WritePaginationHeaders ⟨1, 20, "url", 0, true⟩
    ∧ ("Link", "") ∈ WritePaginationHeaders ⟨1, 20, "url", 0, true⟩ :=
  ⟨(C6_total_count_always ⟨1, 20, "url", 0, true⟩ (by decide)).1,
   ((C6_total_count_always ⟨1, 20, "url", 0, true⟩ (by decide)).2 rfl rfl).2.2⟩

/-- Processing the `per_page` argument never changes the already-settled
`PageRequested` flag, page number or URL. -/
theorem processPerPageArg_preserves (perPageStr : String)
    (req r : PaginationRequest)
    (h : processPerPageArg perPageStr req = .ok r) :
    r.PageRequested = req.PageRequested ∧ r.Page = req.Page
    ∧ r.URL = req.URL := by
  simp only [processPerPageArg] at h
  split at h
  · split at h
    · exact Except.noConfusion h
    · split at h
      · exact Except.noConfusion h
      · split at h
        · cases h
          exact ⟨rfl, rfl, rfl⟩
        · cases h
          exact ⟨rfl, rfl, rfl⟩
  · cases h
    exact ⟨rfl, rfl, rfl⟩

/-- C4: whenever the `per_page` query parameter parses as an integer
strictly above the maximum page size (100), request parsing does not fail
on that parameter and the effective page size is the *default* (20), not
the maximum: any successful parse outcome carries `PerPage = 20`, and
with no `page` parameter present the parse succeeds outright. -/
theorem C4_perPage_above_max_clamps_to_default :
    (∀ (pageStr perPageStr url : String) (v : Int) (r : PaginationRequest),
        parseInt64 perPageStr = some v → maxPageSize < v →
        NewPaginationRequest pageStr perPageStr url = .ok r →
        r.PerPage = defaultPageSize)
    ∧ (∀ (perPageStr url : String) (v : Int),
        parseInt64 perPageStr = some v → maxPageSize < v →
        NewPaginationRequest "" perPageStr url
          = .ok { PageRequested := false, Page := defaultPageNumber,
                  PerPage := defaultPageSize, URL := url })
    ∧ defaultPageSize = 20 ∧ maxPageSize = 100 ∧ defaultPageSize ≠ maxPageSize := by
  refine ⟨?_, ?_, rfl, rfl, by decide⟩
  · intro pageStr perPageStr url v r hp hv hok
    have hne : perPageStr ≠ "" := by
      intro h
      rw [h] at hp
      exact Option.noConfusion hp
    have hv0 : ¬ v ≤ 0 := by
      simp only [maxPageSize] at hv
      omega
    unfold NewPaginationRequest at hok
    rcases hstep : processPageArg pageStr url with e | req
    · rw [hstep] at hok
      exact Except.noConfusion hok
    · rw [hstep] at hok
      simp only [processPerPageArg, if_pos hne, hp] at hok
      rw [if_neg hv0, if_pos hv] at hok
      cases hok
      rfl
  · intro perPageStr url v hp hv
    have hne : perPageStr ≠ "" := by
      intro h
      rw [h] at hp
      exact Option.noConfusion hp
    have hv0 : ¬ v ≤ 0 := by
      simp only [maxPageSize] at hv
      omega
    unfold NewPaginationRequest
    rw [show processPageArg "" url
          = .ok { PageRequested := false, Page := defaultPageNumber,
                  PerPage := defaultPageSize, URL := url } from rfl]
    simp only [processPerPageArg, if_pos hne, hp]
    rw [if_neg hv0, if_pos hv]

/-- Witness for C4 at `per_page=150`, no `page` parameter. -/
theorem C4_witness :
    NewPaginationRequest "" "150" "url"
      = .ok { PageRequested := false, Page := defaultPageNumber,
              PerPage := defaultPageSize, URL := "url" } :=
  C4_perPage_above_max_clamps_to_default.2.1 "150" "url" 150 (by decide)
    (by decide)

/-- C5: a present `page` parameter that is non-numeric or parses to an
integer ≤ 0 makes request parsing fail with the
`ErrorInvalidPaginationRequest` validation error (never a silent
default), and a present valid `page` sets the `PageRequested` flag and
the requested page on any successful parse. -/
theorem C5_page_validation :
    (∀ (pageStr perPageStr url : String),
        pageStr ≠ "" → parseInt64 pageStr = none →
        ∃ e, NewPaginationRequest pageStr perPageStr url = .error e
             ∧ e.ErrCode = ErrorInvalidPaginationRequest)
    ∧ (∀ (pageStr perPageStr url : String) (v : Int),
        pageStr ≠ "" → parseInt64 pageStr = some v → v ≤ 0 →
        ∃ e, NewPaginationRequest pageStr perPageStr url = .error e
             ∧ e.ErrCode = ErrorInvalidPaginationRequest)
    ∧ (∀ (pageStr perPageStr url : String) (v : Int) (r : PaginationRequest),
        pageStr ≠ "" → parseInt64 pageStr = some v → 0 < v →
        NewPaginationRequest pageStr perPageStr url = .ok r →
        r.PageRequested = true ∧ r.Page = v) := by
  refine ⟨?_, ?_, ?_⟩
  · intro pageStr perPageStr url hne hp
    have h1 : processPageArg pageStr url
        = .error (NewErrorMessageWithArgs ErrorInvalidPaginationRequest
                    (some "strconv.ParseInt: parsing") [pageArgName]) := by
      simp only [processPageArg, if_pos hne, hp]
    unfold NewPaginationRequest
    rw [h1]
    exact ⟨_, rfl, rfl⟩
  · intro pageStr perPageStr url v hne hp hv
    have h1 : processPageArg pageStr url
        = .error (NewErrorMessageWithArgs ErrorInvalidPaginationRequest
                    none [pageArgName]) := by
      simp only [processPageArg, if_pos hne, hp]
      rw [if_pos hv]
    unfold NewPaginationRequest
    rw [h1]
    exact ⟨_, rfl, rfl⟩
  · intro pageStr perPageStr url v r hne hp hv hok
    have hv0 : ¬ v ≤ 0 := by omega
    have h1 : processPageArg pageStr url
        = .ok { PageRequested := true, Page := v,
                PerPage := defaultPageSize, URL := url } := by
      simp only [processPageArg, if_pos hne, hp]
      rw [if_neg hv0]
    unfold NewPaginationRequest at hok
    rw [h1] at hok
    obtain ⟨hflag, hpage, -⟩ := processPerPageArg_preserves _ _ _ hok
    exact ⟨hflag, hpage⟩

/-- Witness for C5: `page=0` and `page=-1` are rejected with the
`ErrorInvalidPaginationRequest` code, and `page=3` sets the flag. -/
theorem C5_witness :
    (∃ e, NewPaginationRequest "0" "" "url" = .error e
          ∧ e.ErrCode = ErrorInvalidPaginationRequest)
    ∧ (∃ e, NewPaginationRequest "-1" "" "url" = .error e
            ∧ e.ErrCode = ErrorInvalidPaginationRequest)
    ∧ (∃ e, NewPaginationRequest "abc" "" "url" = .error e
            ∧ e.ErrCode = ErrorInvalidPaginationRequest) :=
  ⟨C5_page_validation.2.1 "0" "" "url" 0 (by decide) (by decide) (by decide),
   C5_page_validation.2.1 "-1" "" "url" (-1) (by decide) (by decide) (by decide),
   C5_page_validation.1 "abc" "" "url" (by decide) (by decide)⟩

/-! ## Theorems: result encoders (C7) -/

/-- Go's `len` on a slice value: a nil slice has length 0 — a nil slice
*is* an empty sequence in Go. -/
def sliceLen : GoVal → Option Nat
  | .slice none => some 0
  | .slice (some xs) => some xs.length
  | _ => none

/-- C7 counterexample: a handler result whose unwrapped list field is a
nil slice — an empty sequence (`len = 0`) in Go — serializes to `null`,
not `[]`, refuting the claim that every empty unwrapped sequence
serializes to `[]`. -/
theorem C7_counterexample :
    fieldByName (.strct [("Items", .slice none)]) "Items"
      = some (.slice none)
    ∧ sliceLen (.slice none) = some 0
    ∧ TypeJSONResult.serveBody "Items" (.strct [("Items", .slice none)])
      = some "null"
    ∧ some ("null" : String) ≠ some ("[]" : String) := by
  refine ⟨rfl, rfl, ?_, by decide⟩
  simp [TypeJSONResult.serveBody, fieldByName, jsonMarshal]

/-- C7 (amended): encoding a handler result through the JSON-list
encoder serializes the body as `[]` whenever the unwrapped list field is
an empty *non-nil* sequence; a nil sequence (also empty in Go)
serializes as `null` instead. -/
theorem C7_empty_nonnil_list_serializes_brackets
    (fields : List (String × GoVal)) (name : String) (hname : name ≠ "")
    (hfield : fieldByName (.strct fields) name = some (.slice (some []))) :
    TypeJSONResult.serveBody name (.strct fields) = some "[]"
    ∧ ("[]" : String) ≠ "null" := by
  constructor
  · simp [TypeJSONResult.serveBody, hname, hfield, jsonMarshal, jsonMarshalElems]
  · decide

/-- Witness for the amended C7 at a concrete one-field result. -/
theorem C7_witness :
    TypeJSONResult.serveBody "Items" (.strct [("Items", .slice (some []))])
      = some "[]" :=
  (C7_empty_nonnil_list_serializes_brackets [("Items", .slice (some []))]
    "Items" (by decide) rfl).1

/-! ## Theorems: CORS preflight resolver (C1) -/

/-- `sortRE.Less` is irreflexive. -/
theorem sortRELess_irrefl (a : List Tok) : sortRELess a a = false := by
  simp [sortRELess]

/-- `reLE` is reflexive. -/
theorem reLE_refl (a : List Tok) : reLE a a := sortRELess_irrefl a

/-- A pattern at least as specific as `p1` is strictly more specific than
anything `p1` is strictly more specific than. -/
theorem reLE_less_trans {w p1 p2 : List Tok} (h1 : reLE w p1)
    (h2 : sortRELess p1 p2 = true) : sortRELess w p2 = true := by
  unfold reLE at h1
  unfold sortRELess at *
  by_cases e1 : wildCount p1 = wildCount w <;>
    by_cases e2 : wildCount p1 = wildCount p2 <;>
    by_cases e3 : wildCount w = wildCount p2 <;>
    simp_all <;> omega

/-- In a list sorted for `reLE`, the first element satisfying a predicate
is at least as specific (in the `reLE` order) as every element satisfying
it. -/
theorem sorted_find_le {l : List (List Tok)} (hs : l.Sorted reLE)
    (f : List Tok → Bool) {p : List Tok} (hp : p ∈ l) (hf : f p = true) :
    ∃ w, l.find? f = some w ∧ f w = true ∧ reLE w p := by
  induction l with
  | nil => cases hp
  | cons a t ih =>
    rcases List.sorted_cons.mp hs with ⟨ha, ht⟩
    by_cases hfa : f a = true
    · refine ⟨a, List.find?_cons_of_pos _ hfa, hfa, ?_⟩
      rcases List.mem_cons.mp hp with rfl | hpt
      · exact reLE_refl p
      · exact ha p hpt
    · have hpt : p ∈ t := by
        rcases List.mem_cons.mp hp with rfl | h
        · exact absurd hf hfa
        · exact h
      obtain ⟨w, hw, hfw, hwle⟩ := ih ht hpt
      exact ⟨w, by rw [List.find?_cons_of_neg _ hfa, hw], hfw, hwle⟩

/-- `corsMap` lookup: with the keys of the map pairwise distinct, looking
up a registered key returns its route index. -/
theorem corsLookup_eq_some {m : List (List Tok × Nat)} {p : List Tok}
    {r : Nat} (hmem : (p, r) ∈ m) (hnd : (m.map Prod.fst).Nodup) :
    corsLookup m p = some r := by
  induction m with
  | nil => cases hmem
  | cons kv t ih =>
    obtain ⟨k, v⟩ := kv
    rw [List.map_cons] at hnd
    rcases List.nodup_cons.mp hnd with ⟨hk, hnd2⟩
    rcases List.mem_cons.mp hmem with heq | hmem2
    · cases heq
      simp [corsLookup]
    · have hne : k ≠ p := by
        intro h
        apply hk
        rw [h]
        exact List.mem_map.mpr ⟨(p, r), hmem2, rfl⟩
      simp only [corsLookup, if_neg hne]
      exact ih hmem2 hnd2

/-- C1 (amended): preflight resolution scans the pattern list sorted by
ascending wildcard count (ties: descending rendered length) and selects
the first pattern matching the entire path.  Consequently (a) whenever
two registered patterns `p1, p2` both match `x` and `p1` is strictly more
specific, the selected pattern is at least as specific as `p1` and is
never `p2`; (b) when `p1` is strictly more specific than *every other*
matching registered pattern, `p1`'s route is selected (but a third, even
more specific matching pattern wins otherwise); and (c) when no pattern
matches, resolution yields the `ErrorNameNotFound` ("route not found")
envelope instead of a route. -/
theorem C1_preflight_resolution :
    (∀ (m : List (List Tok × Nat)) (x : List Char) (p1 p2 : List Tok),
        p1 ∈ m.map Prod.fst → p2 ∈ m.map Prod.fst →
        tokMatch p1 x = true → tokMatch p2 x = true →
        sortRELess p1 p2 = true →
        ∃ w, (getSortedREs m).find? (fun key => tokMatch key x) = some w
          ∧ tokMatch w x = true ∧ reLE w p1 ∧ sortRELess w p2 = true
          ∧ w ≠ p2 ∧ resolveOptions m x = corsLookup m w)
    ∧ (∀ (m : List (List Tok × Nat)) (x : List Char) (p1 : List Tok)
          (r1 : Nat),
        (p1, r1) ∈ m → (m.map Prod.fst).Nodup →
        tokMatch p1 x = true →
        (∀ q ∈ m.map Prod.fst, q ≠ p1 → tokMatch q x = true →
            sortRELess p1 q = true) →
        resolveOptions m x = some r1)
    ∧ (∀ (m : List (List Tok × Nat)) (x : List Char),
        (∀ q ∈ m.map Prod.fst, tokMatch q x = false) →
        handleOptions m x = .error (ErrorMessage ErrorNameNotFound)) := by
  have hsorted : ∀ m : List (List Tok × Nat),
      (getSortedREs m).Sorted reLE := fun m =>
    List.sorted_insertionSort reLE (m.map Prod.fst)
  refine ⟨?_, ?_, ?_⟩
  · intro m x p1 p2 hp1 _hp2 hm1 _hm2 hless
    have hp1s : p1 ∈ getSortedREs m := by
      simpa [getSortedREs] using hp1
    obtain ⟨w, hw, hfw, hwle⟩ := sorted_find_le (hsorted m) (fun key => tokMatch key x) hp1s hm1
    have hwp2 : sortRELess w p2 = true := reLE_less_trans hwle hless
    refine ⟨w, hw, hfw, hwle, hwp2, ?_, ?_⟩
    · intro heq
      rw [heq, sortRELess_irrefl] at hwp2
      exact Bool.noConfusion hwp2
    · simp [resolveOptions, hw]
  · intro m x p1 r1 hmem hnd hm1 hmost
    have hp1k : p1 ∈ m.map Prod.fst := List.mem_map_of_mem Prod.fst hmem
    have hp1s : p1 ∈ getSortedREs m := by
      simpa [getSortedREs] using hp1k
    obtain ⟨w, hw, hfw, hwle⟩ := sorted_find_le (hsorted m) (fun key => tokMatch key x) hp1s hm1
    have hwk : w ∈ m.map Prod.fst := by
      have := List.mem_of_find?_eq_some hw
      simpa [getSortedREs] using this
    have hwp1 : w = p1 := by
      by_contra hne
      have hlt := hmost w hwk hne hfw
      exact Bool.noConfusion (hwle.symm.trans hlt)
    rw [hwp1] at hw
    simp [resolveOptions, hw, corsLookup_eq_some hmem hnd]
  · intro m x hnone
    have hfind : (getSortedREs m).find? (fun key => tokMatch key x) = none := by
      rw [List.find?_eq_none]
      intro q hq
      have hqk : q ∈ m.map Prod.fst := by
        simpa [getSortedREs] using hq
      simp [hnone q hqk]
    simp [handleOptions, resolveOptions, hfind]

/-- Witness for C1 at a concrete route table: the literal path
`/things/special` (route 0) wins over the parameterized `/things/{id}`
(route 1) on the preflight path `/things/special`. -/
theorem C1_witness :
    resolveOptions
      [(compileRE (strUTok "/things/special"), 0),
       (compileRE (strUTok "/things/" ++ [UTok.param]), 1)]
      "/things/special".toList = some 0 :=
  C1_preflight_resolution.2.1
    [(compileRE (strUTok "/things/special"), 0),
     (compileRE (strUTok "/things/" ++ [UTok.param]), 1)]
    "/things/special".toList
    (compileRE (strUTok "/things/special")) 0
    (by decide) (by decide) (by decide) (by decide)

/-- C1 counterexample: with the routes `/a/b` (route 0), `/a/{x}`
(route 1) and `/{x}/{y}` (route 2) registered, the patterns of routes 1
and 2 both match the path `/a/b` and route 1's pattern is strictly more
specific than route 2's — yet resolution selects route 0 (the still more
specific literal pattern), not route 1, refuting the claim that under
those premises `P1`'s route is always the one selected. -/
theorem C1_counterexample :
    tokMatch (compileRE (strUTok "/a/" ++ [UTok.param])) "/a/b".toList = true
    ∧ tokMatch (compileRE (strUTok "/" ++ [UTok.param] ++ strUTok "/" ++ [UTok.param]))
        "/a/b".toList = true
    ∧ sortRELess (compileRE (strUTok "/a/" ++ [UTok.param]))
        (compileRE (strUTok "/" ++ [UTok.param] ++ strUTok "/" ++ [UTok.param])) = true
    ∧ compileRE (strUTok "/a/" ++ [UTok.param])
        ≠ compileRE (strUTok "/" ++ [UTok.param] ++ strUTok "/" ++ [UTok.param])
    ∧ resolveOptions
        [(compileRE (strUTok "/a/b"), 0),
         (compileRE (strUTok "/a/" ++ [UTok.param]), 1),
         (compileRE (strUTok "/" ++ [UTok.param] ++ strUTok "/" ++ [UTok.param]), 2)]
        "/a/b".toList = some 0
    ∧ resolveOptions
        [(compileRE (strUTok "/a/b"), 0),
         (compileRE (strUTok "/a/" ++ [UTok.param]), 1),
         (compileRE (strUTok "/" ++ [UTok.param] ++ strUTok "/" ++ [UTok.param]), 2)]
        "/a/b".toList ≠ some 1 := by
  refine ⟨by decide, by decide, by decide, by decide, by decide, by decide⟩

end IgnGo
